import Mathlib

/-!
Shallow embedding of ReadMariaMJ.py, a FastAPI service over a single MariaDB
table MUSIC_DISCOGRAPHY. The source defines an ORM row class MusicDiscography,
a request schema MusicDiscographySchema (every field Optional with default
None), a session dependency get_db (acquire, yield, close in a finally
clause), a row conversion helper record_to_dict, and three endpoints:
read_music_discography (GET list with skip/limit), debug_music_discography
(GET debug list) and create_music_discography (POST, with no try/except of
its own).

Modelling decisions:
- Column values are strings or dates; dates are embedded as naturals.
- A fetched row is either a readable record (Row.ok), a None entry in the
  batch (Row.absent, the case record_to_dict guards against), or a row whose
  attribute access raises during conversion (Row.corrupt, the case the list
  endpoint's inner try/except guards against).
- The store is the list of rows in the table's natural order plus an optional
  connectivity failure; OFFSET/LIMIT become List.drop/List.take.
- Exceptions are Except values: Exc.httpException models a raised
  HTTPException (status plus detail), Exc.uncaught models an exception that
  escapes the handler uncaught (left to the framework's generic handling).
- Each endpoint is a state transformer returning its result together with the
  resulting store, so frame properties are expressible.
-/

namespace ReadMariaMJ

/-- A column value: the table stores strings and one date column. -/
inductive Val where
  | str (s : String)
  | date (d : Nat)
deriving DecidableEq

/-- The ORM row class MusicDiscography: nine mapped column attributes. An
attribute holds none when the stored value is NULL (or the attribute cannot
be read, which getattr with default None turns into None as well). -/
structure MusicDiscography where
  TYPE : Option String
  SDATE : Option Nat
  SALENUMBER : Option String
  ORDER : Option String
  MTITLE : Option String
  MAINCOLOR : Option String
  LABEL : Option String
  GROUP : Option String
  CENTER : Option String
deriving DecidableEq

/-- The pydantic request schema MusicDiscographySchema: every field is
declared Optional with default None, so an omitted field arrives as none. -/
structure MusicDiscographySchema where
  TYPE : Option String
  SDATE : Option Nat
  SALENUMBER : Option String
  ORDER : Option String
  MTITLE : Option String
  MAINCOLOR : Option String
  LABEL : Option String
  GROUP : Option String
  CENTER : Option String
deriving DecidableEq

/-- The table's column names, in declaration order: record.__table__.columns. -/
def columns : List String :=
  ["TYPE", "SDATE", "SALENUMBER", "ORDER", "MTITLE", "MAINCOLOR", "LABEL", "GROUP", "CENTER"]

/-- getattr(record, name, None): read an attribute by name, substituting None
for anything that cannot be read. -/
def getattrOrNone (r : MusicDiscography) : String → Option Val
  | "TYPE" => r.TYPE.map Val.str
  | "SDATE" => r.SDATE.map Val.date
  | "SALENUMBER" => r.SALENUMBER.map Val.str
  | "ORDER" => r.ORDER.map Val.str
  | "MTITLE" => r.MTITLE.map Val.str
  | "MAINCOLOR" => r.MAINCOLOR.map Val.str
  | "LABEL" => r.LABEL.map Val.str
  | "GROUP" => r.GROUP.map Val.str
  | "CENTER" => r.CENTER.map Val.str
  | _ => none

/-- The output mapping shape: an association list from column name to value. -/
abbrev Dict := List (String × Option Val)

/-- The dict comprehension in record_to_dict: one entry per table column,
valued by getattr with default None. -/
def toDict (r : MusicDiscography) : Dict :=
  columns.map (fun c => (c, getattrOrNone r c))

/-- A row as it comes back from query.all(): a readable record, a None entry,
or a record whose attribute access raises during conversion. -/
inductive Row where
  | absent
  | ok (r : MusicDiscography)
  | corrupt (msg : String)
deriving DecidableEq

/-- record_to_dict: None input gives None (after a logged warning); a
readable record gives its column dict; a corrupt record raises, which the
embedding returns as Except.error. -/
def record_to_dict : Row → Except String (Option Dict)
  | .absent => .ok none
  | .ok r => .ok (some (toDict r))
  | .corrupt msg => .error msg

/-- The database state: the table rows in natural order, plus an optional
connectivity failure that makes every query or commit raise that message. -/
structure DB where
  rows : List Row
  connFail : Option String
deriving DecidableEq

/-- The empty store with a healthy connection. -/
def emptyDB : DB := ⟨[], none⟩

/-- An exception escaping an endpoint body: either a raised
HTTPException (status code and detail string), or a raw exception the handler
never caught (left to the framework). -/
inductive Exc where
  | httpException (status : Nat) (detail : String)
  | uncaught (msg : String)
deriving DecidableEq

/-- db.query(MusicDiscography).offset(skip).limit(limit).all(): the window of
at most limit rows after the first skip rows, in natural order; raises on a
connectivity failure. -/
def fetchAll (db : DB) (skip limit : Nat) : Except String (List Row) :=
  match db.connFail with
  | some msg => .error msg
  | none => .ok ((db.rows.drop skip).take limit)

/-- The valid_records loop of read_music_discography: convert each row; a
truthy dict (non-None, and Python truthiness also excludes an empty dict) is
appended; a falsy result is skipped with a warning; an exception from
conversion is caught, logged, and the row skipped. -/
def processRecords : List Row → List Dict
  | [] => []
  | record :: rest =>
    match record_to_dict record with
    | .ok (some d) => if d.isEmpty then processRecords rest else d :: processRecords rest
    | .ok none => processRecords rest
    | .error _ => processRecords rest

/-- GET /music_discography/: fetch the window, convert row by row skipping
bad rows, return the list of dicts; any exception from the store is caught
and re-raised as HTTPException(500, str(e)). The store is returned unchanged
alongside the result. -/
def read_music_discography (skip limit : Nat) (db : DB) :
    Except Exc (List Dict) × DB :=
  match fetchAll db skip limit with
  | .error e => (.error (.httpException 500 e), db)
  | .ok records => (.ok (processRecords records), db)

/-- One entry of the debug endpoint's output: index in the batch, the Python
type name of the row, its attribute listing, whether it was None, and the
converted data (None when the row was None). The Python key type is spelled
typeName because type is reserved. -/
structure DebugEntry where
  index : Nat
  typeName : String
  attributes : List String
  is_none : Bool
  data : Option Dict
deriving DecidableEq

/-- type(record).__name__ for a fetched row. -/
def pyTypeName : Row → String
  | .absent => "NoneType"
  | .ok _ => "MusicDiscography"
  | .corrupt _ => "MusicDiscography"

/-- Modelled from the spec: dir(record) performs dynamic attribute listing
with no shallow equivalent; per the spec's design note the attributes field
is taken to be the declared schema field names. No claim depends on it. -/
def dirAttributes : Row → List String := fun _ => columns

/-- record is None, the is_none flag of a debug entry. -/
def rowIsNone : Row → Bool
  | .absent => true
  | _ => false

/-- The data field of a debug entry: record_to_dict(record) if record is not
None else None. A corrupt row raises here, inside the endpoint's single
try/except, so the whole request fails. -/
def debugData (row : Row) : Except String (Option Dict) :=
  if rowIsNone row then .ok none else record_to_dict row

/-- The debug_info loop: build one entry per fetched row, in order, with the
zero-based index; an exception from conversion aborts the whole loop. -/
def buildDebugInfo : Nat → List Row → Except String (List DebugEntry)
  | _, [] => .ok []
  | i, record :: rest =>
    match debugData record with
    | .error e => .error e
    | .ok d =>
      match buildDebugInfo (i + 1) rest with
      | .error e => .error e
      | .ok entries =>
        .ok (⟨i, pyTypeName record, dirAttributes record, rowIsNone record, d⟩ :: entries)

/-- GET /debug_music_discography/: fetch the window and build the debug
entries; any exception (store failure or a conversion failure on any row) is
caught and re-raised as HTTPException(500, str(e)). -/
def debug_music_discography (skip limit : Nat) (db : DB) :
    Except Exc (List DebugEntry) × DB :=
  match fetchAll db skip limit with
  | .error e => (.error (.httpException 500 e), db)
  | .ok records =>
    match buildDebugInfo 0 records with
    | .error e => (.error (.httpException 500 e), db)
    | .ok entries => (.ok entries, db)

/-- MusicDiscography(**record.dict()): the new row carries exactly the
payload's field values, omitted fields included as None. -/
def schemaToRecord (s : MusicDiscographySchema) : MusicDiscography :=
  ⟨s.TYPE, s.SDATE, s.SALENUMBER, s.ORDER, s.MTITLE, s.MAINCOLOR, s.LABEL, s.GROUP, s.CENTER⟩

/-- The primary-key value of a fetched row, when it is a readable record. -/
def rowTYPE : Row → Option String
  | .ok r => r.TYPE
  | _ => none

/-- Modelled from the spec: the constraints of the pre-existing external
table (spec section 3), which src only maps and never creates: TYPE is the
primary key (not null, unique); ORDER, MTITLE, LABEL, GROUP and CENTER are
not nullable; SDATE, SALENUMBER and MAINCOLOR are nullable. Returns the
store's error message for the first violated constraint, or none when the
insert is admissible. -/
def insertError (store : List Row) (r : MusicDiscography) : Option String :=
  if r.TYPE.isNone then some "Column TYPE cannot be null"
  else if r.ORDER.isNone then some "Column ORDER cannot be null"
  else if r.MTITLE.isNone then some "Column MTITLE cannot be null"
  else if r.LABEL.isNone then some "Column LABEL cannot be null"
  else if r.GROUP.isNone then some "Column GROUP cannot be null"
  else if r.CENTER.isNone then some "Column CENTER cannot be null"
  else if store.any (fun row => rowTYPE row == r.TYPE) then
    some ("Duplicate entry " ++ (r.TYPE.getD "") ++ " for key PRIMARY")
  else none

/-- db.add(db_record); db.commit(): on a healthy connection and an admissible
insert, append the new row at the end of the natural order; otherwise the
store raises and the uncommitted add is discarded. -/
def commit (db : DB) (r : MusicDiscography) : Except String DB :=
  match db.connFail with
  | some msg => .error msg
  | none =>
    match insertError db.rows r with
    | some msg => .error msg
    | none => .ok ⟨db.rows ++ [Row.ok r], none⟩

/-- db.refresh(db_record): re-read the row with the given primary key from
the store. -/
def refreshByPK (store : List Row) (t : Option String) : Option MusicDiscography :=
  store.findSome? (fun row =>
    match row with
    | .ok r => if r.TYPE = t then some r else none
    | _ => none)

/-- POST /music_discography/: build the row from the payload, add and commit,
refresh from the store, return the refreshed row. The handler has no
try/except, so a store exception escapes uncaught (Exc.uncaught), unlike the
two GET endpoints. -/
def create_music_discography (record : MusicDiscographySchema) (db : DB) :
    Except Exc MusicDiscography × DB :=
  let db_record := schemaToRecord record
  match commit db db_record with
  | .error msg => (.error (.uncaught msg), db)
  | .ok db2 =>
    match refreshByPK db2.rows db_record.TYPE with
    | some refreshed => (.ok refreshed, db2)
    | none => (.error (.uncaught "InvalidRequestError: could not refresh instance"), db2)

/-- The session handle produced by SessionLocal(); closed records whether
db.close() has run on it. -/
structure SessionHandle where
  closed : Bool
deriving DecidableEq

/-- The get_db dependency around one request: db = SessionLocal(); try: yield
db (the endpoint body runs, possibly ending in an exception, which the
embedding keeps as an Except result); finally: db.close(). The finally clause
is embedded as an unconditional close after the body, on both the normal and
the exceptional exit path. -/
def get_db {A : Type} (body : DB → Except Exc A × DB) (db : DB) :
    (Except Exc A × DB) × SessionHandle :=
  let s : SessionHandle := ⟨false⟩
  let result := body db
  (result, { s with closed := true })

/-- Decidable equality for Except results, so that concrete endpoint outputs
can be settled by decide. -/
instance {e a : Type} [DecidableEq e] [DecidableEq a] : DecidableEq (Except e a) := fun x y =>
  match x, y with
  | .error u, .error v =>
    if h : u = v then .isTrue (congrArg Except.error h)
    else .isFalse (fun hc => h (Except.error.inj hc))
  | .error _, .ok _ => .isFalse (fun hc => Except.noConfusion hc)
  | .ok _, .error _ => .isFalse (fun hc => Except.noConfusion hc)
  | .ok u, .ok v =>
    if h : u = v then .isTrue (congrArg Except.ok h)
    else .isFalse (fun hc => h (Except.ok.inj hc))

/-! Helper lemmas shared by the claim theorems. -/

/-- The conversion a list-endpoint row contributes: the dict of a readable
record, nothing for an absent or corrupt row. -/
def rowDict : Row → Option Dict
  | .ok r => some (toDict r)
  | _ => none

theorem toDict_isEmpty (r : MusicDiscography) : (toDict r).isEmpty = false := rfl

theorem processRecords_eq_filterMap (l : List Row) :
    processRecords l = l.filterMap rowDict := by
  induction l with
  | nil => rfl
  | cons row rest ih =>
    cases row with
    | absent => simpa [processRecords, record_to_dict, rowDict] using ih
    | ok r =>
      simp [processRecords, record_to_dict, rowDict, toDict_isEmpty, ih]
    | corrupt m => simpa [processRecords, record_to_dict, rowDict] using ih

theorem read_ok_eq (skip limit : Nat) (db : DB) (h : db.connFail = none) :
    read_music_discography skip limit db =
      (.ok (((db.rows.drop skip).take limit).filterMap rowDict), db) := by
  unfold read_music_discography fetchAll
  rw [h]
  simp [processRecords_eq_filterMap]

theorem read_snd (skip limit : Nat) (db : DB) :
    (read_music_discography skip limit db).2 = db := by
  unfold read_music_discography
  rcases h : fetchAll db skip limit with e | records <;> simp

theorem debug_snd (skip limit : Nat) (db : DB) :
    (debug_music_discography skip limit db).2 = db := by
  unfold debug_music_discography
  rcases h : fetchAll db skip limit with e | records
  · simp
  · rcases h2 : buildDebugInfo 0 records with e | entries <;> simp [h2]

theorem commit_ok_eq (db : DB) (r : MusicDiscography) (db2 : DB)
    (h : commit db r = .ok db2) :
    db.connFail = none ∧ db2 = ⟨db.rows ++ [Row.ok r], none⟩ := by
  unfold commit at h
  rcases hc : db.connFail with _ | m
  · rw [hc] at h
    rcases hi : insertError db.rows r with _ | m2
    · rw [hi] at h
      exact ⟨rfl, (Except.ok.injEq _ _).mp h.symm⟩
    · rw [hi] at h
      exact absurd h (by simp)
  · rw [hc] at h
    exact absurd h (by simp)

theorem create_snd (p : MusicDiscographySchema) (db : DB) :
    (create_music_discography p db).2 = db ∨
      (create_music_discography p db).2 = ⟨db.rows ++ [Row.ok (schemaToRecord p)], none⟩ := by
  rcases h : commit db (schemaToRecord p) with msg | db2
  · left; simp [create_music_discography, h]
  · right
    obtain ⟨-, hdb2⟩ := commit_ok_eq db (schemaToRecord p) db2 h
    subst hdb2
    rcases h2 : refreshByPK (db.rows ++ [Row.ok (schemaToRecord p)]) (schemaToRecord p).TYPE with _ | r <;>
      simp [create_music_discography, h, h2]

/-! Concrete fixtures used by counterexamples and witnesses. -/

/-- A fully populated record with primary key LP1. -/
def recLP1 : MusicDiscography :=
  ⟨some "LP1", some 737791, some "S1", some "A", some "X", some "red", some "L", some "G", some "C"⟩

/-- A fully populated record with primary key LP2. -/
def recLP2 : MusicDiscography :=
  ⟨some "LP2", none, none, some "B", some "Y", none, some "L", some "G", some "C"⟩

/-- A payload that duplicates the primary key LP1. -/
def payloadLP1 : MusicDiscographySchema :=
  ⟨some "LP1", none, none, some "A2", some "X2", none, some "L", some "G", some "C"⟩

/-- A fresh, fully populated payload with primary key LP3. -/
def payloadLP3 : MusicDiscographySchema :=
  ⟨some "LP3", some 737801, none, some "A", some "Y", none, some "L", some "G", some "C"⟩

/-- A payload supplying TYPE but omitting ORDER (and more): every omitted
field arrives as None through the all-optional schema. -/
def payloadMissingORDER : MusicDiscographySchema :=
  ⟨some "LP9", none, none, none, some "X", none, some "L", some "G", some "C"⟩

/-- A store holding the LP1 record only. -/
def dbLP1 : DB := ⟨[Row.ok recLP1], none⟩

/-- A store holding LP1 and LP2. -/
def dbTwo : DB := ⟨[Row.ok recLP1, Row.ok recLP2], none⟩

/-- A store whose single fetched row is a None entry. -/
def dbAbsent : DB := ⟨[Row.absent], none⟩

/-- A store whose batch mixes readable, absent and corrupt rows. -/
def dbMixed : DB := ⟨[Row.ok recLP1, Row.absent, Row.corrupt "DetachedInstanceError", Row.ok recLP2], none⟩

/-- A store with one absent row between two readable ones. -/
def dbWithAbsent : DB := ⟨[Row.ok recLP1, Row.absent, Row.ok recLP2], none⟩

/-! Claim theorems. -/

/-- C10: record_to_dict returns None exactly on a None input record; on every
readable record it totally returns the mapping whose key set is exactly the
table's column names (TYPE, SDATE, SALENUMBER, ORDER, MTITLE, MAINCOLOR,
LABEL, GROUP, CENTER), each valued by attribute lookup with None substituted
when the attribute is NULL or cannot be read. -/
theorem record_to_dict_contract :
    (∀ row : Row, record_to_dict row = .ok none ↔ row = .absent) ∧
    (∀ r : MusicDiscography,
      record_to_dict (.ok r) = .ok (some (toDict r)) ∧
      (toDict r).map Prod.fst = columns ∧
      toDict r = columns.map (fun c => (c, getattrOrNone r c))) := by
  constructor
  · intro row
    cases row <;> simp [record_to_dict]
  · intro r
    exact ⟨rfl, rfl, rfl⟩

/-- C7: the session acquired by get_db at the start of a request is closed on
every exit path of the request. The finally clause is embedded as an
unconditional close after the body, so for every endpoint body and store
state, whether the body's result is ok or an exception, the returned session
handle is closed and the body's result is passed through untouched. -/
theorem get_db_session_closed {A : Type} (body : DB → Except Exc A × DB) (db : DB) :
    ((get_db body db).2).closed = true ∧ (get_db body db).1 = body db :=
  ⟨rfl, rfl⟩

/-- C8: for every store state and every skip/limit, the list and debug-list
operations leave the store unchanged, and the create operation either leaves
the store unchanged (when it fails) or only appends the one new record at the
end: no read operation mutates or deletes records. -/
theorem read_endpoints_frame (skip limit : Nat) (db : DB) (p : MusicDiscographySchema) :
    (read_music_discography skip limit db).2 = db ∧
    (debug_music_discography skip limit db).2 = db ∧
    ((create_music_discography p db).2 = db ∨
      (create_music_discography p db).2 = ⟨db.rows ++ [Row.ok (schemaToRecord p)], none⟩) :=
  ⟨read_snd skip limit db, debug_snd skip limit db, create_snd p db⟩

/-- C9: on a healthy connection the list operation's output is exactly the
conversion filterMapped over the fetched batch: the dicts of the readable
rows in batch order, with the absent and corrupt rows dropped and nothing
reordered, duplicated or invented. -/
theorem read_output_is_filterMap (skip limit : Nat) (db : DB) (h : db.connFail = none) :
    (read_music_discography skip limit db).1 =
      .ok (((db.rows.drop skip).take limit).filterMap rowDict) := by
  rw [read_ok_eq skip limit db h]

/-- C9 witness: evaluated on the mixed store (readable, absent, corrupt,
readable), the output is the filterMap of the batch. -/
theorem read_output_is_filterMap_witness :
    dbMixed.connFail = none ∧
      (read_music_discography 0 10 dbMixed).1 =
        .ok (((dbMixed.rows.drop 0).take 10).filterMap rowDict) :=
  ⟨rfl, read_output_is_filterMap 0 10 dbMixed rfl⟩

/-- C4: for every non-negative skip, positive limit and store state, a
successful list response holds at most limit record mappings, each of them
the conversion of a row of the fetched window, hence of a row beyond the
first skip rows of the store's natural ordering; and on the empty store the
list operation returns the empty sequence with an ok result, not an error. -/
theorem read_pagination_bounds (skip limit : Nat) (hl : 0 < limit) (db : DB)
    (l : List Dict) (h : (read_music_discography skip limit db).1 = .ok l) :
    l.length ≤ limit ∧
    (∀ d ∈ l, ∃ row ∈ (db.rows.drop skip).take limit, rowDict row = some d) ∧
    read_music_discography skip limit emptyDB = (.ok [], emptyDB) := by
  have hc : db.connFail = none := by
    rcases hcc : db.connFail with _ | m
    · rfl
    · exfalso
      have hbad : (read_music_discography skip limit db).1 = .error (.httpException 500 m) := by
        simp [read_music_discography, fetchAll, hcc]
      rw [h] at hbad
      exact Except.noConfusion hbad
  have heq := read_ok_eq skip limit db hc
  rw [heq] at h
  have hx : ((db.rows.drop skip).take limit).filterMap rowDict = l := Except.ok.inj h
  subst hx
  refine ⟨?_, ?_, ?_⟩
  · calc (((db.rows.drop skip).take limit).filterMap rowDict).length
        ≤ ((db.rows.drop skip).take limit).length := List.length_filterMap_le _ _
      _ ≤ limit := by
          rw [List.length_take]
          exact min_le_left _ _
  · intro d hd
    rcases List.mem_filterMap.mp hd with ⟨row, hrow, hconv⟩
    exact ⟨row, hrow, hconv⟩
  · rw [read_ok_eq skip limit emptyDB rfl]
    simp [emptyDB]

/-- C4 witness: skip 1, limit 1 on the two-record store returns exactly the
second record's mapping, within the stated bounds. -/
theorem read_pagination_bounds_witness :
    0 < 1 ∧ (read_music_discography 1 1 dbTwo).1 = .ok [toDict recLP2] ∧
    ([toDict recLP2].length ≤ 1 ∧
      (∀ d ∈ [toDict recLP2], ∃ row ∈ (dbTwo.rows.drop 1).take 1, rowDict row = some d) ∧
      read_music_discography 1 1 emptyDB = (.ok [], emptyDB)) :=
  ⟨by decide, by rfl, read_pagination_bounds 1 1 (by decide) dbTwo [toDict recLP2] (by rfl)⟩

/-- C5: a fetched batch containing an absent or corrupt row still succeeds:
the bad row is skipped and the mappings of all remaining rows of the batch,
before and after it, are returned with an ok result; one bad row never fails
the whole request. -/
theorem read_skips_bad_row (skip limit : Nat) (db : DB) (pre suf : List Row) (bad : Row)
    (h : db.connFail = none)
    (hbatch : (db.rows.drop skip).take limit = pre ++ bad :: suf)
    (hbad : bad = Row.absent ∨ ∃ m, bad = Row.corrupt m) :
    (read_music_discography skip limit db).1 =
      .ok (pre.filterMap rowDict ++ suf.filterMap rowDict) := by
  have hnone : rowDict bad = none := by
    rcases hbad with hb | ⟨m, hb⟩ <;> subst hb <;> rfl
  rw [read_ok_eq skip limit db h, hbatch]
  simp [List.filterMap_append, List.filterMap_cons, hnone]

/-- C5 witness: the store with an absent row between LP1 and LP2 returns the
mappings of LP1 and LP2 and skips the absent row. -/
theorem read_skips_bad_row_witness :
    (dbWithAbsent.rows.drop 0).take 3 = [Row.ok recLP1] ++ Row.absent :: [Row.ok recLP2] ∧
    (read_music_discography 0 3 dbWithAbsent).1 =
      .ok ([Row.ok recLP1].filterMap rowDict ++ [Row.ok recLP2].filterMap rowDict) :=
  ⟨rfl, read_skips_bad_row 0 3 dbWithAbsent [Row.ok recLP1] [Row.ok recLP2] Row.absent rfl
    rfl (Or.inl rfl)⟩

/-- A fetched row is a readable record. -/
def rowIsOk : Row → Bool
  | .ok _ => true
  | _ => false

theorem buildDebugInfo_clean (rows : List Row) :
    ∀ i : Nat, (∀ row ∈ rows, rowIsOk row = true) →
    ∃ entries : List DebugEntry, buildDebugInfo i rows = .ok entries ∧
      entries.map DebugEntry.data = (rows.filterMap rowDict).map some ∧
      entries.length = rows.length := by
  induction rows with
  | nil =>
    intro i _
    exact ⟨[], rfl, rfl, rfl⟩
  | cons row rest ih =>
    intro i hclean
    have hrow := hclean row (List.mem_cons_self _ _)
    cases row with
    | absent => simp [rowIsOk] at hrow
    | corrupt m => simp [rowIsOk] at hrow
    | ok r =>
      obtain ⟨entries, he, hdata, hlen⟩ :=
        ih (i + 1) (fun x hx => hclean x (List.mem_cons_of_mem _ hx))
      refine ⟨⟨i, pyTypeName (.ok r), dirAttributes (.ok r), rowIsNone (.ok r),
        some (toDict r)⟩ :: entries, ?_, ?_, ?_⟩
      · simp [buildDebugInfo, debugData, rowIsNone, record_to_dict, he]
      · simp [rowDict, List.filterMap_cons, hdata]
      · simp [hlen]

/-- C3 counterexample: on the store whose single fetched row is a None entry,
with identical skip 0 and limit 1, the debug-list operation returns one entry
(with data None) while the list operation returns the empty sequence, so the
two output lengths differ and the claimed equality fails. -/
theorem debug_vs_read_length_cex :
    (debug_music_discography 0 1 dbAbsent).1.map List.length ≠
      (read_music_discography 0 1 dbAbsent).1.map List.length := by decide

/-- C3 amended: for identical skip/limit against the same store state, when
every row of the fetched batch is a readable record, the debug-list output
has the same length as the list output and the data field of each debug entry
equals the corresponding list entry. -/
theorem debug_matches_read_on_clean_batch (skip limit : Nat) (db : DB)
    (h : db.connFail = none)
    (hclean : ∀ row ∈ (db.rows.drop skip).take limit, rowIsOk row = true) :
    ∃ entries l, (debug_music_discography skip limit db).1 = .ok entries ∧
      (read_music_discography skip limit db).1 = .ok l ∧
      entries.length = l.length ∧
      entries.map DebugEntry.data = l.map some := by
  obtain ⟨entries, he, hdata, hlen⟩ := buildDebugInfo_clean _ 0 hclean
  refine ⟨entries, ((db.rows.drop skip).take limit).filterMap rowDict, ?_, ?_, ?_, hdata⟩
  · simp [debug_music_discography, fetchAll, h, he]
  · rw [read_ok_eq skip limit db h]
  · simpa using congrArg List.length hdata

/-- C3 amended witness: on the clean two-record store with skip 0 and limit
2, debug and list agree entry by entry. -/
theorem debug_matches_read_on_clean_batch_witness :
    (∀ row ∈ (dbTwo.rows.drop 0).take 2, rowIsOk row = true) ∧
    (∃ entries l, (debug_music_discography 0 2 dbTwo).1 = .ok entries ∧
      (read_music_discography 0 2 dbTwo).1 = .ok l ∧
      entries.length = l.length ∧
      entries.map DebugEntry.data = l.map some) :=
  ⟨by decide, debug_matches_read_on_clean_batch 0 2 dbTwo rfl (by decide)⟩

/-- C1 counterexample: creating a payload whose TYPE LP1 already exists in
the store fails, but with the raw store conflict error escaping the handler
uncaught; the operation does not produce an HTTPException with status code
500 carrying the store error message as detail, so the claimed response shape
is false at this input. -/
theorem create_duplicate_cex :
    (create_music_discography payloadLP1 dbLP1).1 =
      .error (.uncaught "Duplicate entry LP1 for key PRIMARY") ∧
    (create_music_discography payloadLP1 dbLP1).1 ≠
      .error (.httpException 500 "Duplicate entry LP1 for key PRIMARY") := by
  decide

/-- C1 amended: for every create payload whose TYPE already exists among the
store's records (and which satisfies the not-null constraints), the create
operation fails, leaves the store unchanged, and the store's conflict error
propagates uncaught out of the handler, which has no try/except of its own:
no HTTPException with status code 500 and a detail message is raised by the
operation itself, so the framework's generic error handling, not the
endpoint, determines the final response. -/
theorem create_duplicate_uncaught (p : MusicDiscographySchema) (db : DB) (t : String)
    (hconn : db.connFail = none)
    (hT : p.TYPE = some t)
    (hOrd : p.ORDER.isSome = true) (hMt : p.MTITLE.isSome = true)
    (hLb : p.LABEL.isSome = true) (hGr : p.GROUP.isSome = true)
    (hCe : p.CENTER.isSome = true)
    (hdup : db.rows.any (fun row => rowTYPE row == p.TYPE) = true) :
    create_music_discography p db =
      (.error (.uncaught ("Duplicate entry " ++ t ++ " for key PRIMARY")), db) ∧
    ∀ d : String, (create_music_discography p db).1 ≠ .error (.httpException 500 d) := by
  obtain ⟨ov, hO⟩ := Option.isSome_iff_exists.mp hOrd
  obtain ⟨mv, hM⟩ := Option.isSome_iff_exists.mp hMt
  obtain ⟨lv, hL⟩ := Option.isSome_iff_exists.mp hLb
  obtain ⟨gv, hG⟩ := Option.isSome_iff_exists.mp hGr
  obtain ⟨cv, hC⟩ := Option.isSome_iff_exists.mp hCe
  have hdup2 : ∃ x ∈ db.rows, rowTYPE x = some t := by
    rw [hT] at hdup
    simpa using List.any_eq_true.mp hdup
  have hins : insertError db.rows (schemaToRecord p) =
      some ("Duplicate entry " ++ t ++ " for key PRIMARY") := by
    unfold insertError
    simp [schemaToRecord, hT, hO, hM, hL, hG, hC]
    exact hdup2
  have hcommit : commit db (schemaToRecord p) =
      .error ("Duplicate entry " ++ t ++ " for key PRIMARY") := by
    unfold commit
    rw [hconn, hins]
  constructor
  · simp [create_music_discography, hcommit]
  · intro d
    simp [create_music_discography, hcommit]

/-- C1 amended witness: the duplicate LP1 payload on the LP1 store evaluates
exactly as the amended theorem states. -/
theorem create_duplicate_uncaught_witness :
    dbLP1.rows.any (fun row => rowTYPE row == payloadLP1.TYPE) = true ∧
    (create_music_discography payloadLP1 dbLP1 =
        (.error (.uncaught ("Duplicate entry " ++ "LP1" ++ " for key PRIMARY")), dbLP1) ∧
      ∀ d : String, (create_music_discography payloadLP1 dbLP1).1 ≠
        .error (.httpException 500 d)) :=
  ⟨by decide,
    create_duplicate_uncaught payloadLP1 dbLP1 "LP1" rfl rfl rfl rfl rfl rfl rfl (by decide)⟩

theorem insertError_none_required (store : List Row) (r : MusicDiscography)
    (h : insertError store r = none) :
    r.TYPE.isSome = true ∧ r.ORDER.isSome = true ∧ r.MTITLE.isSome = true ∧
      r.LABEL.isSome = true ∧ r.GROUP.isSome = true ∧ r.CENTER.isSome = true := by
  unfold insertError at h
  split_ifs at h with h1 h2 h3 h4 h5 h6 h7 <;> try simp at h
  simp only [Option.isNone_iff_eq_none] at h1 h2 h3 h4 h5 h6
  exact ⟨Option.ne_none_iff_isSome.mp h1, Option.ne_none_iff_isSome.mp h2,
    Option.ne_none_iff_isSome.mp h3, Option.ne_none_iff_isSome.mp h4,
    Option.ne_none_iff_isSome.mp h5, Option.ne_none_iff_isSome.mp h6⟩

/-- C2: a create payload omitting any field the data model marks non-optional
(TYPE, ORDER, MTITLE, LABEL, GROUP or CENTER; through the all-optional
request schema an omitted field arrives as None) is rejected: the create
operation fails with a store error and the store is unchanged. The row it
attempted to insert carries exactly the payload's values, so no default is
substituted beyond the schema's declared optional/None. -/
theorem create_missing_required_fails (p : MusicDiscographySchema) (db : DB)
    (hconn : db.connFail = none)
    (hmiss : p.TYPE = none ∨ p.ORDER = none ∨ p.MTITLE = none ∨
      p.LABEL = none ∨ p.GROUP = none ∨ p.CENTER = none) :
    (∃ msg, create_music_discography p db = (.error (.uncaught msg), db)) ∧
    schemaToRecord p = ⟨p.TYPE, p.SDATE, p.SALENUMBER, p.ORDER, p.MTITLE,
      p.MAINCOLOR, p.LABEL, p.GROUP, p.CENTER⟩ := by
  refine ⟨?_, rfl⟩
  rcases hi : insertError db.rows (schemaToRecord p) with _ | msg
  · exfalso
    obtain ⟨h1, h2, h3, h4, h5, h6⟩ := insertError_none_required _ _ hi
    rcases hmiss with hm | hm | hm | hm | hm | hm <;>
      simp [schemaToRecord, hm] at h1 h2 h3 h4 h5 h6
  · exact ⟨msg, by simp [create_music_discography, commit, hconn, hi]⟩

/-- C2 witness: the payload omitting ORDER fails on the empty store and its
row carries exactly the payload's values. -/
theorem create_missing_required_fails_witness :
    payloadMissingORDER.ORDER = none ∧
    ((∃ msg, create_music_discography payloadMissingORDER emptyDB =
        (.error (.uncaught msg), emptyDB)) ∧
      schemaToRecord payloadMissingORDER = ⟨payloadMissingORDER.TYPE,
        payloadMissingORDER.SDATE, payloadMissingORDER.SALENUMBER,
        payloadMissingORDER.ORDER, payloadMissingORDER.MTITLE,
        payloadMissingORDER.MAINCOLOR, payloadMissingORDER.LABEL,
        payloadMissingORDER.GROUP, payloadMissingORDER.CENTER⟩) :=
  ⟨rfl, create_missing_required_fails payloadMissingORDER emptyDB rfl (Or.inr (Or.inl rfl))⟩

theorem refreshByPK_append (rows : List Row) (r : MusicDiscography) (t : String)
    (hT : r.TYPE = some t)
    (hfresh : rows.any (fun row => rowTYPE row == r.TYPE) = false) :
    refreshByPK (rows ++ [Row.ok r]) r.TYPE = some r := by
  induction rows with
  | nil =>
    simp [refreshByPK, List.findSome?_cons]
  | cons row rest ih =>
    rw [List.any_cons] at hfresh
    have hrow : (rowTYPE row == r.TYPE) = false := by
      cases hx : rowTYPE row == r.TYPE
      · rfl
      · rw [hx] at hfresh; simp at hfresh
    have hrest : rest.any (fun x => rowTYPE x == r.TYPE) = false := by
      cases hx : rest.any (fun x => rowTYPE x == r.TYPE)
      · rfl
      · rw [hx] at hfresh; simp at hfresh
    have ihr := ih hrest
    unfold refreshByPK at ihr ⊢
    rw [List.cons_append, List.findSome?_cons]
    cases row with
    | absent => simpa using ihr
    | corrupt m => simpa using ihr
    | ok r2 =>
      have hne : r2.TYPE ≠ r.TYPE := by
        intro hcontra
        rw [show rowTYPE (Row.ok r2) = r2.TYPE from rfl, hcontra] at hrow
        simp at hrow
      simpa [hne] using ihr

/-- C6: for every valid create payload (TYPE supplied and fresh in the store,
required fields supplied, healthy connection), the create operation persists
the row, the re-read after commit returns exactly the submitted record, and a
subsequent list with sufficient limit returns a sequence that includes the
created record's mapping with every submitted field value intact. -/
theorem create_then_read_includes (p : MusicDiscographySchema) (db : DB) (t : String)
    (limit : Nat)
    (hconn : db.connFail = none)
    (hT : p.TYPE = some t)
    (hOrd : p.ORDER.isSome = true) (hMt : p.MTITLE.isSome = true)
    (hLb : p.LABEL.isSome = true) (hGr : p.GROUP.isSome = true)
    (hCe : p.CENTER.isSome = true)
    (hfresh : db.rows.any (fun row => rowTYPE row == p.TYPE) = false)
    (hlim : db.rows.length + 1 ≤ limit) :
    ∃ db2 l, create_music_discography p db = (.ok (schemaToRecord p), db2) ∧
      (read_music_discography 0 limit db2).1 = .ok l ∧
      toDict (schemaToRecord p) ∈ l := by
  obtain ⟨ov, hO⟩ := Option.isSome_iff_exists.mp hOrd
  obtain ⟨mv, hM⟩ := Option.isSome_iff_exists.mp hMt
  obtain ⟨lv, hL⟩ := Option.isSome_iff_exists.mp hLb
  obtain ⟨gv, hG⟩ := Option.isSome_iff_exists.mp hGr
  obtain ⟨cv, hC⟩ := Option.isSome_iff_exists.mp hCe
  have hfresh2 : ∀ x ∈ db.rows, ¬rowTYPE x = some t := by
    rw [hT] at hfresh
    simpa using List.any_eq_false.mp hfresh
  have hins : insertError db.rows (schemaToRecord p) = none := by
    unfold insertError
    simp [schemaToRecord, hT, hO, hM, hL, hG, hC]
    exact hfresh2
  have hcommit : commit db (schemaToRecord p) =
      .ok ⟨db.rows ++ [Row.ok (schemaToRecord p)], none⟩ := by
    unfold commit
    rw [hconn, hins]
  have hrefresh : refreshByPK (db.rows ++ [Row.ok (schemaToRecord p)])
      (schemaToRecord p).TYPE = some (schemaToRecord p) :=
    refreshByPK_append db.rows (schemaToRecord p) t hT hfresh
  have htake : (db.rows ++ [Row.ok (schemaToRecord p)]).take limit =
      db.rows ++ [Row.ok (schemaToRecord p)] :=
    List.take_of_length_le (by simpa using hlim)
  refine ⟨⟨db.rows ++ [Row.ok (schemaToRecord p)], none⟩,
    (db.rows ++ [Row.ok (schemaToRecord p)]).filterMap rowDict, ?_, ?_, ?_⟩
  · simp [create_music_discography, hcommit, hrefresh]
  · rw [read_ok_eq 0 limit _ rfl]
    simp [List.drop_zero, htake]
  · exact List.mem_filterMap.mpr ⟨Row.ok (schemaToRecord p), by simp, rfl⟩

/-- C6 witness: creating the fresh LP3 payload on the two-record store and
listing with limit 3 includes the created record with all fields intact. -/
theorem create_then_read_includes_witness :
    dbTwo.rows.any (fun row => rowTYPE row == payloadLP3.TYPE) = false ∧
    dbTwo.rows.length + 1 ≤ 3 ∧
    ∃ db2 l, create_music_discography payloadLP3 dbTwo = (.ok (schemaToRecord payloadLP3), db2) ∧
      (read_music_discography 0 3 db2).1 = .ok l ∧
      toDict (schemaToRecord payloadLP3) ∈ l :=
  ⟨by decide, by decide,
    create_then_read_includes payloadLP3 dbTwo "LP3" 3 rfl rfl rfl rfl rfl rfl rfl
      (by decide) (by decide)⟩

end ReadMariaMJ
